import Mathlib

/-!
Verification of the `pas` promise/resolver library.

The development shallowly embeds the Go sources:
* `Promise[T]` with `Get` / `Resolve` / `New` / `NewPending` (pas.go, promise section)
  as `PromiseState` with explicit `ready` / `once` fields;
* the reflection-driven resolver `resolveValue`, the non-recursive `shallowResolve`,
  and the entry points `Async` / `Sync` / `executeFunction` over a model of Go
  dynamic values (`GoVal`) and `reflect.Type` descriptors (`GoType`).

Blocking channel reads are modelled by a `blocked` result; Go panics by a
`panicked` result carrying a structured message mirroring the `fmt.Sprintf`
call sites; goroutine side effects of `Async` by an explicit outcome record.
-/

/-- Base (scalar) kinds used by the model. Go's full kind lattice is larger;
the claims only exercise `int`, `bool` and `string`. -/
inductive GoKind where
  | kInt
  | kBool
  | kString
deriving DecidableEq

/-- Model of `reflect.Type` as seen by `resolveValue`: the expected-shape
descriptor.  `iface` is the empty interface (dynamic/open shape). -/
inductive GoType where
  | base (k : GoKind)
  | ptr (elem : GoType)
  | slice (elem : GoType)
  | array (len : Nat) (elem : GoType)
  | gomap (key : GoType) (elem : GoType)
  | iface
deriving DecidableEq

/-- Model of a Go dynamic value (`interface{}`).  A `*Promise[T]` stored in an
`interface{}` is either pending (its `ready` channel still open, so `get()`
blocks) or ready with a payload; `vnil` is the nil interface; `vptrNil` a typed
nil pointer. -/
inductive GoVal where
  | vnil
  | vint (n : Int)
  | vbool (b : Bool)
  | vstring (s : String)
  | vptrNil
  | vptrTo (v : GoVal)
  | vslice (xs : List GoVal)
  | varray (xs : List GoVal)
  | vmap (entries : List (GoVal × GoVal))
  | vpromisePending
  | vpromiseReady (payload : GoVal)

/-- Structured counterparts of the `fmt.Errorf` messages produced by
`resolveValue`.  Each constructor corresponds to one error site in the Go
source. -/
inductive RErr where
  /-- "expected a pointer of type %s, but got %s" -/
  | notPtr (expected : GoType) (gotKind : String)
  /-- "expected a slice, but got %s" -/
  | notSlice (gotKind : String)
  /-- "expected an array, but got %s" -/
  | notArray (gotKind : String)
  /-- "expected a map, but got %s" -/
  | notMap (gotKind : String)
  /-- "expected array of length %d, but got %d" -/
  | lengthMismatch (want got : Nat)
  /-- "cannot assign or convert %s to %s" -/
  | cannotConvert (want : GoType)
  /-- "error resolving slice element at index %d: %v" -/
  | sliceElem (idx : Nat) (e : RErr)
  /-- "error resolving array element at index %d: %v" -/
  | arrayElem (idx : Nat) (e : RErr)
  /-- "error resolving map key %v: %v" -/
  | mapKeyErr (key : GoVal) (e : RErr)
  /-- "error resolving map value for key %v: %v" -/
  | mapValErr (key : GoVal) (e : RErr)

/-- Result of `resolveValue` / `shallowResolve`: the Go `(interface{}, error)`
pair, plus `blocked` for a `Get`/`get` that never returns because the promise
is pending. -/
inductive RRes where
  | ok (v : GoVal)
  | err (e : RErr)
  | blocked

/-- Result of resolving a list of elements (slice/array loop bodies). -/
inductive LRes where
  | ok (vs : List GoVal)
  | err (e : RErr)
  | blocked

/-- Result of resolving the entries of a map. -/
inductive MRes where
  | ok (entries : List (GoVal × GoVal))
  | err (e : RErr)
  | blocked

/-- `reflect.Zero(t).Interface()`: the zero value of a type.  The zero value of
a slice/map is Go's nil slice/map, which `resolveValue` treats identically to
an empty one, so it is modelled as the empty container. -/
def zeroValue : GoType → GoVal
  | .base .kInt => .vint 0
  | .base .kBool => .vbool false
  | .base .kString => .vstring ""
  | .ptr _ => .vptrNil
  | .slice _ => .vslice []
  | .array n e => .varray (List.replicate n (zeroValue e))
  | .gomap _ _ => .vmap []
  | .iface => .vnil

/-- `reflect.ValueOf(v).Kind().String()` for the modelled values.  A
`*Promise[T]` is a pointer in Go's kind system. -/
def goKindName : GoVal → String
  | .vnil => "invalid"
  | .vint _ => "int"
  | .vbool _ => "bool"
  | .vstring _ => "string"
  | .vptrNil => "ptr"
  | .vptrTo _ => "ptr"
  | .vslice _ => "slice"
  | .varray _ => "array"
  | .vmap _ => "map"
  | .vpromisePending => "ptr"
  | .vpromiseReady _ => "ptr"

/-- Semantic rendering of `reflect`'s `AssignableTo` on the modelled fragment:
everything is assignable to the empty interface, scalars to their own kind,
and containers structurally. -/
def valAssignable : GoVal → GoType → Bool
  | _, .iface => true
  | .vint _, .base .kInt => true
  | .vbool _, .base .kBool => true
  | .vstring _, .base .kString => true
  | .vptrNil, .ptr _ => true
  | .vptrTo v, .ptr e => valAssignable v e
  | .vslice xs, .slice e => xs.all (fun v => valAssignable v e)
  | .varray xs, .array n e => xs.length == n && xs.all (fun v => valAssignable v e)
  | .vmap es, .gomap k e => es.all (fun kv => valAssignable kv.1 k && valAssignable kv.2 e)
  | _, _ => false

/-- `reflect`'s `ConvertibleTo` restricted to the modelled kinds: among
`int`, `bool`, `string` and the containers over them, every conversion the
claims exercise is an identity, so convertibility coincides with
assignability on this fragment. -/
def valConvertible (v : GoVal) (t : GoType) : Bool :=
  valAssignable v t

/-- `reflect.Value.Convert` on the modelled fragment (identity, see
`valConvertible`). -/
def convertVal (v : GoVal) (_t : GoType) : GoVal := v

mutual

/-- `resolveValue(input, expectedType)` from pas.go: recursively resolves
promises within `input` guided by `expected`.  Branch order follows the
source: nil check, promise unwrap (blocking `get()`), pointer handling,
then a switch on the expected kind (slice, array, map, interface, scalar). -/
def resolveValue (input : GoVal) (expected : GoType) : RRes :=
  match input with
  | .vnil => .ok (zeroValue expected)
  | .vpromisePending => .blocked
  | .vpromiseReady payload => resolveValue payload expected
  | inp =>
    match expected with
    | .ptr e =>
      match inp with
      | .vptrNil => .ok (zeroValue (.ptr e))
      | .vptrTo v =>
        match resolveValue v e with
        | .ok r => .ok (.vptrTo r)
        | .err er => .err er
        | .blocked => .blocked
      | _ => .err (.notPtr (.ptr e) (goKindName inp))
    | .slice e =>
      match inp with
      | .vslice xs =>
        match resolveSliceElems xs e 0 with
        | .ok rs => .ok (.vslice rs)
        | .err er => .err er
        | .blocked => .blocked
      | _ => .err (.notSlice (goKindName inp))
    | .array n e =>
      match inp with
      | .varray xs =>
        if xs.length ≠ n then .err (.lengthMismatch n xs.length)
        else
          match resolveArrayElems xs e 0 with
          | .ok rs => .ok (.varray rs)
          | .err er => .err er
          | .blocked => .blocked
      | _ => .err (.notArray (goKindName inp))
    | .gomap kt vt =>
      match inp with
      | .vmap es =>
        match resolveMapEntries es kt vt with
        | .ok rs => .ok (.vmap rs)
        | .err er => .err er
        | .blocked => .blocked
      | _ => .err (.notMap (goKindName inp))
    | .iface => .ok inp
    | .base k =>
      if valAssignable inp (.base k) then .ok inp
      else if valConvertible inp (.base k) then .ok (convertVal inp (.base k))
      else .err (.cannotConvert (.base k))

/-- The slice loop of `resolveValue`: element `i` context in errors. -/
def resolveSliceElems (xs : List GoVal) (e : GoType) (i : Nat) : LRes :=
  match xs with
  | [] => .ok []
  | x :: rest =>
    match resolveValue x e with
    | .ok r =>
      match resolveSliceElems rest e (i + 1) with
      | .ok rs => .ok (r :: rs)
      | .err er => .err er
      | .blocked => .blocked
    | .err er => .err (.sliceElem i er)
    | .blocked => .blocked

/-- The array loop of `resolveValue`. -/
def resolveArrayElems (xs : List GoVal) (e : GoType) (i : Nat) : LRes :=
  match xs with
  | [] => .ok []
  | x :: rest =>
    match resolveValue x e with
    | .ok r =>
      match resolveArrayElems rest e (i + 1) with
      | .ok rs => .ok (r :: rs)
      | .err er => .err er
      | .blocked => .blocked
    | .err er => .err (.arrayElem i er)
    | .blocked => .blocked

/-- The map loop of `resolveValue`: resolves each key against the key type and
each value against the value type.  (Go iterates `MapKeys()` in unspecified
order; the model iterates the entry list in order.) -/
def resolveMapEntries (es : List (GoVal × GoVal)) (kt vt : GoType) : MRes :=
  match es with
  | [] => .ok []
  | (k, v) :: rest =>
    match resolveValue k kt with
    | .ok rk =>
      match resolveValue v vt with
      | .ok rv =>
        match resolveMapEntries rest kt vt with
        | .ok rs => .ok ((rk, rv) :: rs)
        | .err er => .err er
        | .blocked => .blocked
      | .err er => .err (.mapValErr rk er)
      | .blocked => .blocked
    | .err er => .err (.mapKeyErr k er)
    | .blocked => .blocked

end

/-- `shallowResolve(input, expectedType)` from pas.go: nil becomes the zero
value of the expected type, a top-level promise is replaced by its payload
(blocking until ready, with no descent into the payload), and everything else
passes through untouched. -/
def shallowResolve (input : GoVal) (expected : GoType) : RRes :=
  match input with
  | .vnil => .ok (zeroValue expected)
  | .vpromisePending => .blocked
  | .vpromiseReady payload => .ok payload
  | v => .ok v

/-- State of a `Promise[T]` (pas.go): the write-once `value` slot, whether the
`ready` channel has been closed, and whether the `sync.Once` guard has been
consumed. -/
structure PromiseState (α : Type) where
  value : α
  ready : Bool
  onceUsed : Bool
deriving DecidableEq

/-- `Get()`: blocks on the `ready` channel, then returns the value.  `none`
models a read that blocks forever (channel never closed). -/
def PromiseState.Get (p : PromiseState α) : Option α :=
  if p.ready then some p.value else none

/-- `Resolve(value)`: `once.Do { p.value = value; close(p.ready) }` — a no-op
once the guard has been consumed. -/
def PromiseState.Resolve (p : PromiseState α) (v : α) : PromiseState α :=
  if p.onceUsed then p else { value := v, ready := true, onceUsed := true }

/-- `New(values...)` from pas.go: at most one initial value (zero value of T
when absent), panics — modelled as `Except.error` — on more than one; the
`ready` channel is closed through `once.Do`, so the guard is consumed and any
later `Resolve` is a no-op. -/
def New [Inhabited α] (values : List α) : Except String (PromiseState α) :=
  match values with
  | [] => .ok { value := default, ready := true, onceUsed := true }
  | [v] => .ok { value := v, ready := true, onceUsed := true }
  | vs => .error ("New: expected at most one value, got " ++ toString vs.length ++ " values")

/-- `NewPending()`: zero-valued slot, channel open, guard unused. -/
def NewPending [Inhabited α] : PromiseState α :=
  { value := default, ready := false, onceUsed := false }

/-- The `f interface{}` argument of `Async`/`Sync`: either a Go function value
with its parameter types, result count, and behaviour (the implementation may
panic, modelled as `Except.error`), or some non-function value. -/
inductive FuncArg where
  | goFunc (params : List GoType) (numOut : Nat) (impl : List GoVal → Except String GoVal)
  | notAFunc

/-- Structured counterparts of the panic messages raised by `Async`, `Sync`
and `executeFunction`. -/
inductive PanicMsg where
  /-- "expected a function, but got %T" -/
  | notAFunction
  /-- "function must have exactly one return value, but got %d values" -/
  | wrongReturnArity (got : Nat)
  /-- "function expects %d arguments, but got %d" -/
  | wrongArgCount (want got : Nat)
  /-- "error resolving argument %d: %v" -/
  | argResolveErr (idx : Nat) (e : RErr)
  /-- "argument %d has type %s, expected %s" -/
  | argTypeMismatch (idx : Nat)
  /-- "return type of function does not match generic type" -/
  | returnTypeMismatch
  /-- a panic raised by the worker function itself -/
  | userPanic (msg : String)

/-- Result of running `executeFunction` (or the body of `Sync`): a value, a
panic, or blocking forever on a pending promise. -/
inductive ExecRes where
  | ok (v : GoVal)
  | panicked (p : PanicMsg)
  | blocked

/-- Result of resolving the argument list inside `executeFunction`. -/
inductive ArgsRes where
  | ok (vs : List GoVal)
  | panicked (p : PanicMsg)
  | blocked

/-- The flag-detection prologue shared by `Async` and `Sync`: when one more
argument than required is supplied and the last one is a `bool`, it selects
the resolution mode and is stripped; otherwise the argument list is unchanged
and the mode stays shallow (`recursive = false`). -/
def stripFlag (numRequired : Nat) (args : List GoVal) : Bool × List GoVal :=
  if args.length = numRequired + 1 then
    match args.getLast? with
    | some (.vbool b) => (b, args.dropLast)
    | _ => (false, args)
  else (false, args)

/-- The per-argument mode dispatch of `executeFunction`: recursive mode uses
`resolveValue`, shallow mode uses `shallowResolve`. -/
def modeResolve (recursive : Bool) (arg : GoVal) (expected : GoType) : RRes :=
  if recursive then resolveValue arg expected else shallowResolve arg expected

/-- The post-resolution fixup of `executeFunction` for argument `idx`: a nil
result becomes the zero value of the expected type; otherwise the result must
be assignable (or convertible) to the expected type, else the call panics. -/
def coerceArg (idx : Nat) (resolved : GoVal) (expected : GoType) : Except PanicMsg GoVal :=
  match resolved with
  | .vnil => .ok (zeroValue expected)
  | r =>
    if valAssignable r expected then .ok r
    else if valConvertible r expected then .ok (convertVal r expected)
    else .error (.argTypeMismatch idx)

/-- The argument-resolution loop of `executeFunction` (index `i` appears in
panic messages). -/
def resolveArgsLoop (recursive : Bool) : List GoType → List GoVal → Nat → ArgsRes
  | t :: ts, a :: rest, i =>
    match modeResolve recursive a t with
    | .err e => .panicked (.argResolveErr i e)
    | .blocked => .blocked
    | .ok resolved =>
      match coerceArg i resolved t with
      | .error p => .panicked p
      | .ok r =>
        match resolveArgsLoop recursive ts rest (i + 1) with
        | .ok rs => .ok (r :: rs)
        | .panicked p => .panicked p
        | .blocked => .blocked
  | _, _, _ => .ok []

/-- `results[0].Interface().(T)`: the type assertion on the single result.
Asserting a nil interface fails; any non-nil value asserts to the empty
interface; otherwise the dynamic type must match. -/
def typeAssertOk (v : GoVal) (t : GoType) : Bool :=
  match v with
  | .vnil => false
  | w => valAssignable w t

/-- The tail of `executeFunction`: `fv.Call(resolvedArgs)` followed by the
type assertion on the single result — the worker may panic. -/
def callAndAssert (t : GoType) (impl : List GoVal → Except String GoVal)
    (rs : List GoVal) : ExecRes :=
  match impl rs with
  | .error m => .panicked (.userPanic m)
  | .ok result =>
    if typeAssertOk result t then .ok result else .panicked .returnTypeMismatch

/-- The body of `executeFunction` once `f` is known to be a function: the
one-result check, the argument-count check, the resolution loop, and the
call. -/
def executeFunctionBody (t : GoType) (ps : List GoType) (numOut : Nat)
    (impl : List GoVal → Except String GoVal) (recursive : Bool)
    (args : List GoVal) : ExecRes :=
  if numOut ≠ 1 then .panicked (.wrongReturnArity numOut)
  else if ps.length ≠ args.length then .panicked (.wrongArgCount ps.length args.length)
  else
    match resolveArgsLoop recursive ps args 0 with
    | .panicked p => .panicked p
    | .blocked => .blocked
    | .ok rs => callAndAssert t impl rs

/-- `executeFunction[T](f, recursive, args...)` from pas.go: validates `f` is
a function with exactly one result and matching argument count, resolves each
argument in the selected mode, invokes the function, and asserts the result
type. -/
def executeFunction (t : GoType) (f : FuncArg) (recursive : Bool) (args : List GoVal) : ExecRes :=
  match f with
  | .notAFunc => .panicked .notAFunction
  | .goFunc ps numOut impl => executeFunctionBody t ps numOut impl recursive args

/-- `Sync[T](f, args...)` from pas.go: synchronous validation (function kind,
argument count after flag stripping) followed by an inline `executeFunction`;
every failure propagates to the caller. -/
def Sync (t : GoType) (f : FuncArg) (args : List GoVal) : ExecRes :=
  match f with
  | .notAFunc => .panicked .notAFunction
  | .goFunc ps numOut impl =>
    let mode := stripFlag ps.length args
    if mode.2.length ≠ ps.length then .panicked (.wrongArgCount ps.length mode.2.length)
    else executeFunction t (.goFunc ps numOut impl) mode.1 mode.2

/-- Observable outcome of a call to `Async`: either a synchronous panic at the
call site, or a returned promise — `promiseValue = none` when the promise is
never resolved (any `Get()` on it blocks forever) — together with the
diagnostics printed by the goroutine's `recover` handler. -/
inductive AsyncRes where
  | syncPanic (p : PanicMsg)
  | returned (promiseValue : Option GoVal) (diagnostics : List PanicMsg)

/-- The fate of the goroutine spawned by `Async`: a normal result resolves the
pending promise; a panic is recovered and only printed, leaving the promise
unresolved; blocking forever also leaves it unresolved (with no diagnostic). -/
def asyncFinish : ExecRes → AsyncRes
  | .ok v => .returned (some v) []
  | .panicked p => .returned none [p]
  | .blocked => .returned none []

/-- `Async[T](f, args...)` from pas.go: synchronously validates the function
kind and the argument count (after flag stripping), returns a pending promise
and runs `executeFunction` in a spawned goroutine whose outcome is described
by `asyncFinish`.  Note the one-result check lives in `executeFunction` and
therefore happens inside the goroutine, not at the call site. -/
def Async (t : GoType) (f : FuncArg) (args : List GoVal) : AsyncRes :=
  match f with
  | .notAFunc => .syncPanic .notAFunction
  | .goFunc ps numOut impl =>
    let mode := stripFlag ps.length args
    if mode.2.length ≠ ps.length then .syncPanic (.wrongArgCount ps.length mode.2.length)
    else asyncFinish (executeFunction t (.goFunc ps numOut impl) mode.1 mode.2)

/-- Value classifiers used to state the claims. -/
def isNilVal : GoVal → Bool
  | .vnil => true
  | _ => false

def isPromiseVal : GoVal → Bool
  | .vpromisePending => true
  | .vpromiseReady _ => true
  | _ => false

/-- Pointer-kind test matching `reflect.Kind() == reflect.Ptr` (promises are
pointers in Go). -/
def isPtrKindVal : GoVal → Bool
  | .vptrNil => true
  | .vptrTo _ => true
  | .vpromisePending => true
  | .vpromiseReady _ => true
  | _ => false

def isSliceVal : GoVal → Bool
  | .vslice _ => true
  | _ => false

def sliceElemsOf : GoVal → List GoVal
  | .vslice xs => xs
  | _ => []

def isMapVal : GoVal → Bool
  | .vmap _ => true
  | _ => false

def mapEntriesOf : GoVal → List (GoVal × GoVal)
  | .vmap es => es
  | _ => []

/-- Whether an error is the fixed-length mismatch error of the array branch. -/
def RErr.isLengthErr : RErr → Bool
  | .lengthMismatch _ _ => true
  | _ => false

/-- Whether the last argument is a `bool` (the optional mode flag). -/
def lastIsBool (args : List GoVal) : Bool :=
  match args.getLast? with
  | some (.vbool _) => true
  | _ => false

/-- A chain of `k` nested ready promises around a value. -/
def nestPromises : Nat → GoVal → GoVal
  | 0, v => v
  | k + 1, v => .vpromiseReady (nestPromises k v)

theorem resolveSliceElems_ok_spec (xs : List GoVal) (e : GoType) (i : Nat) (rs : List GoVal)
    (h : resolveSliceElems xs e i = .ok rs) :
    rs.length = xs.length ∧
      ∀ j (hj : j < xs.length) (hj2 : j < rs.length),
        resolveValue (xs.get ⟨j, hj⟩) e = .ok (rs.get ⟨j, hj2⟩) := by
  induction xs generalizing i rs with
  | nil =>
    rw [resolveSliceElems] at h
    cases h
    exact ⟨rfl, fun j hj => absurd hj (Nat.not_lt_zero j)⟩
  | cons x rest ih =>
    rw [resolveSliceElems] at h
    cases hx : resolveValue x e with
    | ok r =>
      rw [hx] at h
      cases hr : resolveSliceElems rest e (i + 1) with
      | ok rs2 =>
        rw [hr] at h
        cases h
        obtain ⟨hlen, hget⟩ := ih (i + 1) rs2 hr
        refine ⟨by simp [hlen], ?_⟩
        intro j hj hj2
        cases j with
        | zero => simpa using hx
        | succ j' =>
          simp only [List.get_cons_succ]
          exact hget j' (Nat.lt_of_succ_lt_succ hj) (Nat.lt_of_succ_lt_succ hj2)
      | err er => rw [hr] at h; cases h
      | blocked => rw [hr] at h; cases h
    | err er => rw [hx] at h; cases h
    | blocked => rw [hx] at h; cases h

theorem resolveMapEntries_ok_spec (es : List (GoVal × GoVal)) (kt vt : GoType)
    (rs : List (GoVal × GoVal)) (h : resolveMapEntries es kt vt = .ok rs) :
    rs.length = es.length ∧
      ∀ j (hj : j < es.length) (hj2 : j < rs.length),
        resolveValue (es.get ⟨j, hj⟩).1 kt = .ok (rs.get ⟨j, hj2⟩).1 ∧
        resolveValue (es.get ⟨j, hj⟩).2 vt = .ok (rs.get ⟨j, hj2⟩).2 := by
  induction es generalizing rs with
  | nil =>
    rw [resolveMapEntries] at h
    cases h
    exact ⟨rfl, fun j hj => absurd hj (Nat.not_lt_zero j)⟩
  | cons kv rest ih =>
    obtain ⟨k, v⟩ := kv
    rw [resolveMapEntries] at h
    cases hk : resolveValue k kt with
    | ok rk =>
      rw [hk] at h
      cases hv : resolveValue v vt with
      | ok rv =>
        rw [hv] at h
        cases hr : resolveMapEntries rest kt vt with
        | ok rs2 =>
          rw [hr] at h
          cases h
          obtain ⟨hlen, hget⟩ := ih rs2 hr
          refine ⟨by simp [hlen], ?_⟩
          intro j hj hj2
          cases j with
          | zero => exact ⟨by simpa using hk, by simpa using hv⟩
          | succ j' =>
            simp only [List.get_cons_succ]
            exact hget j' (Nat.lt_of_succ_lt_succ hj) (Nat.lt_of_succ_lt_succ hj2)
        | err er => rw [hr] at h; cases h
        | blocked => rw [hr] at h; cases h
      | err er => rw [hv] at h; cases h
      | blocked => rw [hv] at h; cases h
    | err er => rw [hk] at h; cases h
    | blocked => rw [hk] at h; cases h

theorem resolveValue_vslice_ok (xs : List GoVal) (e : GoType) (out : GoVal)
    (h : resolveValue (.vslice xs) (.slice e) = .ok out) :
    ∃ rs, out = .vslice rs ∧ resolveSliceElems xs e 0 = .ok rs := by
  rw [resolveValue] at h
  cases hr : resolveSliceElems xs e 0 with
  | ok rs => rw [hr] at h; cases h; exact ⟨rs, rfl, rfl⟩
  | err er => rw [hr] at h; cases h
  | blocked => rw [hr] at h; cases h

theorem resolveValue_vmap_ok (es : List (GoVal × GoVal)) (kt vt : GoType) (out : GoVal)
    (h : resolveValue (.vmap es) (.gomap kt vt) = .ok out) :
    ∃ rs, out = .vmap rs ∧ resolveMapEntries es kt vt = .ok rs := by
  rw [resolveValue] at h
  cases hr : resolveMapEntries es kt vt with
  | ok rs => rw [hr] at h; cases h; exact ⟨rs, rfl, rfl⟩
  | err er => rw [hr] at h; cases h
  | blocked => rw [hr] at h; cases h

/-- C1: once a promise becomes ready its value never changes: resolving a
pending promise with `v1` and then with `v2` leaves every `Get()` returning
`v1` (the second `Resolve` is a no-op), and the single-assignment invariant
(`ready` channel closed exactly when the once-guard is consumed, after which
`Resolve` cannot touch the state) is preserved by `New`, `NewPending` and
`Resolve` (`Get` is a pure read of the state). -/
theorem C1_single_assignment (α : Type) [Inhabited α] (p : PromiseState α) (v1 v2 : α) :
    (p.onceUsed = false → ((p.Resolve v1).Resolve v2).Get = some v1)
    ∧ (p.ready = true → p.onceUsed = true →
        p.Resolve v1 = p ∧ (p.Resolve v1).Get = p.Get)
    ∧ (∀ (vals : List α) (q : PromiseState α), New vals = Except.ok q →
        q.ready = true ∧ q.onceUsed = true)
    ∧ ((NewPending : PromiseState α).ready = (NewPending : PromiseState α).onceUsed)
    ∧ (p.ready = p.onceUsed → (p.Resolve v1).ready = (p.Resolve v1).onceUsed) := by
  refine ⟨?_, ?_, ?_, rfl, ?_⟩
  · intro h
    simp [PromiseState.Resolve, PromiseState.Get, h]
  · intro _ honce
    constructor <;> simp [PromiseState.Resolve, honce]
  · intro vals q h
    match vals with
    | [] => cases h; exact ⟨rfl, rfl⟩
    | [v] => cases h; exact ⟨rfl, rfl⟩
    | a :: b :: rest => simp [New] at h
  · intro h
    by_cases honce : p.onceUsed
    · simp [PromiseState.Resolve, honce, h]
    · simp [PromiseState.Resolve, honce]

/-- C1 witness: a freshly pending promise resolved with 1 and then 2 reads
back 1. -/
theorem C1_single_assignment_witness :
    (((⟨0, false, false⟩ : PromiseState Int).Resolve 1).Resolve 2).Get = some 1 :=
  (C1_single_assignment Int ⟨0, false, false⟩ 1 2).1 rfl

/-- C5: `New` returns an already-ready promise: `New [v]` reads back `v`
immediately (no blocking), `New []` reads back the zero value of the type,
and `New` with two or more values fails with the invalid-arity error. -/
theorem C5_new_semantics (α : Type) [Inhabited α] (v : α) (vs : List α) :
    (New [v] = Except.ok { value := v, ready := true, onceUsed := true }
      ∧ PromiseState.Get { value := v, ready := true, onceUsed := true } = some v)
    ∧ (New ([] : List α) = Except.ok { value := (default : α), ready := true, onceUsed := true }
      ∧ PromiseState.Get { value := (default : α), ready := true, onceUsed := true }
        = some (default : α))
    ∧ (2 ≤ vs.length →
        New vs = Except.error ("New: expected at most one value, got "
          ++ toString vs.length ++ " values")) := by
  refine ⟨⟨rfl, rfl⟩, ⟨rfl, rfl⟩, ?_⟩
  intro h
  match vs with
  | [] => simp at h
  | [a] => simp at h
  | a :: b :: rest => rfl

/-- C5 witness: concrete instances at type `Int`. -/
theorem C5_new_semantics_witness :
    New [(7 : Int)] = Except.ok { value := 7, ready := true, onceUsed := true }
    ∧ New [(1 : Int), 2] = Except.error ("New: expected at most one value, got "
        ++ toString ([(1 : Int), 2].length) ++ " values") :=
  ⟨(C5_new_semantics Int 7 [1, 2]).1.1, (C5_new_semantics Int 7 [1, 2]).2.2 (by decide)⟩

/-- C3: resolution is transitive through promises: a chain of `k` ready
promises resolves exactly like its innermost payload against the same
expected shape; a pending promise blocks the resolver; unwrapping one ready
layer re-resolves the payload against the same shape. -/
theorem C3_transitive_resolution :
    (∀ (k : Nat) (v : GoVal) (t : GoType),
        resolveValue (nestPromises k v) t = resolveValue v t)
    ∧ (∀ t : GoType, resolveValue .vpromisePending t = .blocked)
    ∧ (∀ (v : GoVal) (t : GoType),
        resolveValue (.vpromiseReady v) t = resolveValue v t) := by
  refine ⟨?_, fun _ => rfl, fun _ _ => rfl⟩
  intro k
  induction k with
  | zero => intro v t; rfl
  | succ k' ih =>
    intro v t
    rw [nestPromises, resolveValue]
    exact ih v t

/-- C6: against a pointer shape, a non-nil non-promise input of non-pointer
kind fails with the shape-mismatch error; a typed nil pointer resolves to the
nil pointer of the expected type; a non-nil pointer resolves to a new pointer
whose pointee is the resolution of the input's pointee against the pointee
shape. -/
theorem C6_pointer_resolution :
    (∀ (v : GoVal) (e : GoType), isNilVal v = false → isPromiseVal v = false →
        isPtrKindVal v = false →
        resolveValue v (.ptr e) = .err (.notPtr (.ptr e) (goKindName v)))
    ∧ (∀ e : GoType, resolveValue .vptrNil (.ptr e) = .ok (zeroValue (.ptr e))
        ∧ zeroValue (.ptr e) = .vptrNil)
    ∧ (∀ (v r : GoVal) (e : GoType), resolveValue v e = .ok r →
        resolveValue (.vptrTo v) (.ptr e) = .ok (.vptrTo r)) := by
  refine ⟨?_, fun e => ⟨rfl, rfl⟩, ?_⟩
  · intro v e hnil hprom hptr
    cases v with
    | vnil => simp [isNilVal] at hnil
    | vptrNil => simp [isPtrKindVal] at hptr
    | vptrTo w => simp [isPtrKindVal] at hptr
    | vpromisePending => simp [isPromiseVal] at hprom
    | vpromiseReady w => simp [isPromiseVal] at hprom
    | vint n => rfl
    | vbool b => rfl
    | vstring s => rfl
    | vslice xs => rfl
    | varray xs => rfl
    | vmap es => rfl
  · intro v r e h
    rw [resolveValue, h]

/-- C6 witness: an `int` against `*int` is a shape mismatch; `*int` nil maps
to nil; a pointer to a ready promise of 2 resolves to a pointer to 2. -/
theorem C6_pointer_resolution_witness :
    resolveValue (.vint 3) (.ptr (.base .kInt))
      = .err (.notPtr (.ptr (.base .kInt)) (goKindName (.vint 3)))
    ∧ resolveValue (.vptrTo (.vpromiseReady (.vint 2))) (.ptr (.base .kInt))
      = .ok (.vptrTo (.vint 2)) :=
  ⟨C6_pointer_resolution.1 (.vint 3) (.base .kInt) rfl rfl rfl,
   C6_pointer_resolution.2.2 (.vpromiseReady (.vint 2)) (.vint 2) (.base .kInt) rfl⟩

/-- C7 counterexample: a variable-length sequence (slice) of length 2 resolved
against the fixed-size array shape `[3]int` does not fail with a length
error — it fails with the array-kind mismatch error ("expected an array, but
got slice") raised before any length comparison. -/
theorem C7_counterexample :
    resolveValue (.vslice [.vint 1, .vint 2]) (.array 3 (.base .kInt))
      = .err (.notArray "slice")
    ∧ RErr.isLengthErr (.notArray "slice") = false :=
  ⟨rfl, rfl⟩

/-- C7 (amended): an array-kind input against a fixed-size array shape is
validated for length equality and fails with the length error on mismatch;
a slice input against a fixed-size array shape fails with the array-kind
mismatch error regardless of its length. -/
theorem C7_fixed_length_validation :
    (∀ (xs : List GoVal) (n : Nat) (e : GoType), xs.length ≠ n →
        resolveValue (.varray xs) (.array n e) = .err (.lengthMismatch n xs.length)
        ∧ RErr.isLengthErr (.lengthMismatch n xs.length) = true)
    ∧ (∀ (xs : List GoVal) (n : Nat) (e : GoType),
        resolveValue (.vslice xs) (.array n e) = .err (.notArray "slice")) := by
  refine ⟨?_, fun xs n e => rfl⟩
  intro xs n e h
  refine ⟨?_, rfl⟩
  rw [resolveValue]
  simp [h]

/-- C7 witness: `[2]int`-kind input of length 1 against `[3]int` fails with
the length error. -/
theorem C7_fixed_length_validation_witness :
    resolveValue (.varray [.vint 5]) (.array 3 (.base .kInt))
      = .err (.lengthMismatch 3 [GoVal.vint 5].length)
    ∧ RErr.isLengthErr (.lengthMismatch 3 [GoVal.vint 5].length) = true :=
  C7_fixed_length_validation.1 [.vint 5] 3 (.base .kInt) (by decide)

/-- C2: resolving a slice against a sequence shape yields a slice of the same
length whose element `i` is the resolution of input element `i` (order and
index preserved); resolving a map against a mapping shape yields a map with
one entry per input entry, key and value resolved against the key and value
shapes, and when the keys resolve to themselves the key list is preserved
exactly.  Includes the concrete round-trips `[P(1), P(2), P(3)] : []int ↦
[1,2,3]` and `{"a": P(1), "b": P(2)} : map[string]int ↦ {"a":1, "b":2}`. -/
theorem C2_container_roundtrip :
    (∀ (xs : List GoVal) (e : GoType) (out : GoVal),
        resolveValue (.vslice xs) (.slice e) = .ok out →
          isSliceVal out = true ∧ (sliceElemsOf out).length = xs.length ∧
          ∀ j (hj : j < xs.length) (hj2 : j < (sliceElemsOf out).length),
            resolveValue (xs.get ⟨j, hj⟩) e = .ok ((sliceElemsOf out).get ⟨j, hj2⟩))
    ∧ (∀ (es : List (GoVal × GoVal)) (kt vt : GoType) (out : GoVal),
        resolveValue (.vmap es) (.gomap kt vt) = .ok out →
          isMapVal out = true ∧ (mapEntriesOf out).length = es.length ∧
          (∀ j (hj : j < es.length) (hj2 : j < (mapEntriesOf out).length),
            resolveValue (es.get ⟨j, hj⟩).1 kt = .ok ((mapEntriesOf out).get ⟨j, hj2⟩).1 ∧
            resolveValue (es.get ⟨j, hj⟩).2 vt = .ok ((mapEntriesOf out).get ⟨j, hj2⟩).2) ∧
          ((∀ j (hj : j < es.length),
              resolveValue (es.get ⟨j, hj⟩).1 kt = .ok (es.get ⟨j, hj⟩).1) →
            (mapEntriesOf out).map Prod.fst = es.map Prod.fst))
    ∧ resolveValue (.vslice [.vpromiseReady (.vint 1), .vpromiseReady (.vint 2),
        .vpromiseReady (.vint 3)]) (.slice (.base .kInt))
      = .ok (.vslice [.vint 1, .vint 2, .vint 3])
    ∧ resolveValue (.vmap [(.vstring "a", .vpromiseReady (.vint 1)),
        (.vstring "b", .vpromiseReady (.vint 2))]) (.gomap (.base .kString) (.base .kInt))
      = .ok (.vmap [(.vstring "a", .vint 1), (.vstring "b", .vint 2)]) := by
  refine ⟨?_, ?_, rfl, rfl⟩
  · intro xs e out h
    obtain ⟨rs, rfl, hloop⟩ := resolveValue_vslice_ok xs e out h
    obtain ⟨hlen, hget⟩ := resolveSliceElems_ok_spec xs e 0 rs hloop
    exact ⟨rfl, hlen, hget⟩
  · intro es kt vt out h
    obtain ⟨rs, rfl, hloop⟩ := resolveValue_vmap_ok es kt vt out h
    obtain ⟨hlen, hget⟩ := resolveMapEntries_ok_spec es kt vt rs hloop
    refine ⟨rfl, ?_, ?_, ?_⟩
    · simpa [mapEntriesOf] using hlen
    · simp only [mapEntriesOf]
      exact hget
    intro hkeys
    apply List.ext_get (by simp [mapEntriesOf, hlen])
    intro j h1 h2
    have hj : j < es.length := by simpa [mapEntriesOf, hlen] using h1
    have hj2 : j < rs.length := by simpa [mapEntriesOf] using h1
    have hk := (hget j hj hj2).1
    have hk2 := hkeys j hj
    rw [hk2] at hk
    simp only [mapEntriesOf, List.get_map]
    injection hk with hk
    exact hk.symm

/-- C2 witness: concrete instance of the general slice clause. -/
theorem C2_container_roundtrip_witness :
    isSliceVal (.vslice [.vint 4]) = true
    ∧ (sliceElemsOf (.vslice [.vint 4])).length = [GoVal.vpromiseReady (.vint 4)].length :=
  have h := C2_container_roundtrip.1 [.vpromiseReady (.vint 4)] (.base .kInt)
    (.vslice [.vint 4]) rfl
  ⟨h.1, h.2.1⟩

theorem stripFlag_no_extra (n : Nat) (args : List GoVal) (h : args.length = n) :
    stripFlag n args = (false, args) := by
  rw [stripFlag, if_neg]
  omega

theorem stripFlag_extra_not_bool (n : Nat) (args : List GoVal)
    (h : args.length = n + 1) (hb : lastIsBool args = false) :
    stripFlag n args = (false, args) := by
  rw [stripFlag, if_pos h]
  rw [lastIsBool] at hb
  cases hl : args.getLast? with
  | none => rfl
  | some v =>
    rw [hl] at hb
    cases v with
    | vbool b => simp at hb
    | vnil => rfl
    | vint n => rfl
    | vstring s => rfl
    | vptrNil => rfl
    | vptrTo w => rfl
    | vslice xs => rfl
    | varray xs => rfl
    | vmap es => rfl
    | vpromisePending => rfl
    | vpromiseReady w => rfl

theorem stripFlag_extra_bool (n : Nat) (args : List GoVal) (b : Bool)
    (h : args.length = n + 1) (hl : args.getLast? = some (.vbool b)) :
    stripFlag n args = (b, args.dropLast) := by
  rw [stripFlag, if_pos h, hl]

/-- C4: when the worker function itself panics inside the goroutine spawned by
`Async` (validation passed and every argument resolved), the panic is
recovered and reported as the only diagnostic, and the returned promise is
never resolved (`promiseValue = none`), so every `Get()` on it blocks
forever. -/
theorem C4_worker_panic_pending (t : GoType) (ps : List GoType)
    (impl : List GoVal → Except String GoVal) (args args2 : List GoVal)
    (recursive : Bool) (rs : List GoVal) (m : String)
    (hstrip : stripFlag ps.length args = (recursive, args2))
    (hlen : args2.length = ps.length)
    (hres : resolveArgsLoop recursive ps args2 0 = .ok rs)
    (himpl : impl rs = .error m) :
    Async t (.goFunc ps 1 impl) args = .returned none [.userPanic m] := by
  rw [Async, hstrip]
  dsimp only
  rw [if_neg (by simp [hlen])]
  rw [executeFunction, executeFunctionBody, if_neg (by simp), if_neg (by omega), hres]
  show asyncFinish (callAndAssert t impl rs) = _
  rw [callAndAssert, himpl]
  rfl

/-- C4 witness: a zero-argument worker that panics with "boom". -/
theorem C4_worker_panic_pending_witness :
    Async (.base .kInt) (.goFunc [] 1 (fun _ => Except.error "boom")) []
      = .returned none [.userPanic "boom"] :=
  C4_worker_panic_pending (.base .kInt) [] (fun _ => Except.error "boom") [] []
    false [] "boom" rfl rfl rfl rfl

/-- C8 counterexample: `Async` with a function declaring two results and a
matching argument count is not aborted synchronously — the call returns a
promise; the wrong-return-arity panic happens inside the spawned goroutine,
is recovered there, and the promise stays unresolved. -/
theorem C8_counterexample :
    Async (.base .kInt) (.goFunc [] 2 (fun _ => Except.ok (.vint 0))) []
      = .returned none [.wrongReturnArity 2] := rfl

/-- C8 (amended): both entry points synchronously validate that `f` is a
function and that the argument count (after stripping the optional trailing
boolean flag) matches the declared parameter count, aborting the call with
the corresponding error; the exactly-one-result check lives in
`executeFunction`, so it aborts `Sync` synchronously but fires inside the
goroutine spawned by `Async`, where it is recovered and the promise is left
unresolved. -/
theorem C8_validation (t : GoType) (ps : List GoType) (numOut : Nat)
    (impl : List GoVal → Except String GoVal) (args args2 : List GoVal) (recursive : Bool) :
    (Async t .notAFunc args = .syncPanic .notAFunction)
    ∧ (Sync t .notAFunc args = .panicked .notAFunction)
    ∧ (stripFlag ps.length args = (recursive, args2) → args2.length ≠ ps.length →
        Async t (.goFunc ps numOut impl) args
          = .syncPanic (.wrongArgCount ps.length args2.length)
        ∧ Sync t (.goFunc ps numOut impl) args
          = .panicked (.wrongArgCount ps.length args2.length))
    ∧ (stripFlag ps.length args = (recursive, args2) → args2.length = ps.length →
        numOut ≠ 1 →
        Sync t (.goFunc ps numOut impl) args = .panicked (.wrongReturnArity numOut)
        ∧ Async t (.goFunc ps numOut impl) args
          = .returned none [.wrongReturnArity numOut]) := by
  refine ⟨rfl, rfl, ?_, ?_⟩
  · intro hstrip hne
    rw [Async, Sync, hstrip]
    exact ⟨by rw [if_pos hne], by rw [if_pos hne]⟩
  · intro hstrip heq hout
    constructor
    · rw [Sync, hstrip, if_neg (by simp [heq]), executeFunction, executeFunctionBody,
        if_pos hout]
    · rw [Async, hstrip, if_neg (by simp [heq]), executeFunction, executeFunctionBody,
        if_pos hout]
      rfl

/-- C8 witness: concrete instances — a non-function aborts both entry points;
a wrong argument count aborts both synchronously; a two-result function
aborts `Sync` synchronously but turns into an unresolved promise for
`Async`. -/
theorem C8_validation_witness :
    Sync (.base .kInt) .notAFunc [] = .panicked .notAFunction
    ∧ Async (.base .kInt) (.goFunc [] 0 (fun _ => Except.ok (.vint 0))) [.vint 1]
        = .syncPanic (.wrongArgCount 0 1)
    ∧ Sync (.base .kInt) (.goFunc [] 2 (fun _ => Except.ok (.vint 0))) []
        = .panicked (.wrongReturnArity 2) :=
  ⟨(C8_validation (.base .kInt) [] 0 (fun _ => Except.ok (.vint 0)) [] [] false).2.1,
   ((C8_validation (.base .kInt) [] 0 (fun _ => Except.ok (.vint 0)) [.vint 1] [.vint 1]
      false).2.2.1 rfl (by decide)).1,
   ((C8_validation (.base .kInt) [] 2 (fun _ => Except.ok (.vint 0)) [] []
      false).2.2.2 rfl rfl (by decide)).1⟩

/-- C9: shallow mode processes each argument on its own and resolves only a
single top-level promise: a ready promise is replaced by its payload with no
further descent (a nested promise payload survives), nil becomes the zero
value of the expected type, and every non-nil non-promise value — including
containers holding promises — passes through untouched. -/
theorem C9_shallow_resolution (v : GoVal) (t : GoType) :
    (shallowResolve .vnil t = .ok (zeroValue t))
    ∧ (shallowResolve (.vpromiseReady v) t = .ok v)
    ∧ (isNilVal v = false → isPromiseVal v = false → shallowResolve v t = .ok v)
    ∧ (shallowResolve (.vpromiseReady (.vpromiseReady v)) t = .ok (.vpromiseReady v)) := by
  refine ⟨rfl, rfl, ?_, rfl⟩
  intro hnil hprom
  cases v with
  | vnil => simp [isNilVal] at hnil
  | vpromisePending => simp [isPromiseVal] at hprom
  | vpromiseReady w => simp [isPromiseVal] at hprom
  | vint n => rfl
  | vbool b => rfl
  | vstring s => rfl
  | vptrNil => rfl
  | vptrTo w => rfl
  | vslice xs => rfl
  | varray xs => rfl
  | vmap es => rfl

/-- C9 witness: a slice containing a ready promise passes through shallow
resolution untouched. -/
theorem C9_shallow_resolution_witness :
    shallowResolve (.vslice [.vpromiseReady (.vint 5)]) (.slice (.base .kInt))
      = .ok (.vslice [.vpromiseReady (.vint 5)]) :=
  (C9_shallow_resolution (.vslice [.vpromiseReady (.vint 5)]) (.slice (.base .kInt))).2.2.1
    rfl rfl

/-- C10: with no trailing boolean flag — argument count equal to the declared
parameter count, or the extra last argument not a `bool` — the recursive flag
stays `false` and the call resolves in shallow mode (nested promises are left
in place); recursive resolution is selected only by an explicit trailing
boolean flag, which is stripped before the count check. -/
theorem C10_shallow_default (t : GoType) (ps : List GoType) (numOut : Nat)
    (impl : List GoVal → Except String GoVal) (n : Nat) (args : List GoVal) (b : Bool)
    (a : GoVal) :
    (args.length = n → stripFlag n args = (false, args))
    ∧ (args.length = n + 1 → lastIsBool args = false → stripFlag n args = (false, args))
    ∧ (args.length = n + 1 → args.getLast? = some (.vbool b) →
        stripFlag n args = (b, args.dropLast))
    ∧ (modeResolve false a t = shallowResolve a t)
    ∧ (modeResolve true a t = resolveValue a t)
    ∧ (args.length = ps.length →
        Sync t (.goFunc ps numOut impl) args
          = executeFunction t (.goFunc ps numOut impl) false args
        ∧ Async t (.goFunc ps numOut impl) args
          = asyncFinish (executeFunction t (.goFunc ps numOut impl) false args))
    ∧ (shallowResolve (.vslice [.vpromiseReady (.vint 1)]) (.slice (.base .kInt))
        = .ok (.vslice [.vpromiseReady (.vint 1)])
      ∧ resolveValue (.vslice [.vpromiseReady (.vint 1)]) (.slice (.base .kInt))
        = .ok (.vslice [.vint 1])) := by
  refine ⟨stripFlag_no_extra n args, stripFlag_extra_not_bool n args,
    stripFlag_extra_bool n args b, rfl, rfl, ?_, rfl, rfl⟩
  intro hlen
  rw [Sync, Async, stripFlag_no_extra ps.length args hlen]
  rw [if_neg (by simpa using hlen), if_neg (by simpa using hlen)]
  exact ⟨rfl, rfl⟩

/-- C10 witness: `Sync` on a one-parameter function called without a flag
runs `executeFunction` in shallow mode; an extra non-boolean last argument
also leaves the flag `false`. -/
theorem C10_shallow_default_witness :
    stripFlag 1 [.vint 1, .vint 2] = (false, [.vint 1, .vint 2])
    ∧ Sync (.base .kInt) (.goFunc [.base .kInt] 1 (fun _ => Except.ok (.vint 9))) [.vint 3]
        = executeFunction (.base .kInt)
            (.goFunc [.base .kInt] 1 (fun _ => Except.ok (.vint 9))) false [.vint 3] :=
  ⟨(C10_shallow_default (.base .kInt) [] 1 (fun _ => Except.ok (.vint 9)) 1
      [.vint 1, .vint 2] false .vnil).2.1 rfl rfl,
   ((C10_shallow_default (.base .kInt) [.base .kInt] 1 (fun _ => Except.ok (.vint 9)) 0
      [.vint 3] false .vnil).2.2.2.2.2.1 rfl).1⟩
